import Mathlib

/-
Verification of the snarkVM state-path authenticator
(src/console/program/src/state_path/mod.rs).

Field elements of the network's prime field F are modelled as Nat; the
network parameterization N is modelled as a record of oracles
(verify_merkle_path_bhp, hash_bhp1024) together with the field bit-length
and serialized byte width. The newtype wrappers StateRoot, BlockHash and
TransactionID are each a wrapper around F with identical width, so they
are modelled by the field type itself.
-/

set_option maxRecDepth 8000

namespace SnarkVM

deriving instance DecidableEq for Except

/-- A Merkle path: an ordered sequence of sibling field elements plus a
leaf index (spec section 3). Field elements are modelled as Nat. -/
structure MerklePath where
  siblings : List Nat
  leafIndex : Nat
deriving DecidableEq

/-- The network parameterization N: the field bit-length, the serialized
field byte width, and the two oracles the state-path core consumes
(spec section 6). hash_bhp1024 returns an error only on internal failure;
the underlying error is modelled abstractly as a Nat code. -/
structure Network where
  fsize : Nat
  fbytes : Nat
  verifyMerklePathBhp : MerklePath → Nat → List Bool → Bool
  hashBhp1024 : List Bool → Except Nat Nat

/-- Little-endian bit expansion of a field element, at the field
bit-length of the network. -/
def fieldToBitsLE (n : Network) (x : Nat) : List Bool :=
  (List.range n.fsize).map fun i => x.testBit i

/-- Little-endian bit expansion of a u8 (8 bits). -/
def u8ToBitsLE (x : Nat) : List Bool :=
  (List.range 8).map fun i => x.testBit i

/-- Little-endian bit expansion of a u16 (16 bits). -/
def u16ToBitsLE (x : Nat) : List Bool :=
  (List.range 16).map fun i => x.testBit i

/-- Modelled from the spec: TransitionLeaf (its source file
state_path/transition_leaf is not under src/). Attributes in declaration
order: version u8, index u8, variant u8, id F (spec section 3). -/
structure TransitionLeaf where
  version : Nat
  index : Nat
  variant : Nat
  id : Nat
deriving DecidableEq

/-- Modelled from the spec: canonical bit serialization of a
TransitionLeaf, the concatenation of LE bit expansions of each attribute
in declaration order (spec section 4.1). -/
def TransitionLeaf.to_bits_le (l : TransitionLeaf) (n : Network) : List Bool :=
  u8ToBitsLE l.version ++ u8ToBitsLE l.index ++ u8ToBitsLE l.variant ++ fieldToBitsLE n l.id

/-- Modelled from the spec: TransactionLeaf (its source file
state_path/transaction_leaf is not under src/). Attributes: variant u8,
index u16, id F (spec section 3). -/
structure TransactionLeaf where
  variant : Nat
  index : Nat
  id : Nat
deriving DecidableEq

/-- Modelled from the spec: canonical bit serialization of a
TransactionLeaf (spec section 4.1). -/
def TransactionLeaf.to_bits_le (l : TransactionLeaf) (n : Network) : List Bool :=
  u8ToBitsLE l.variant ++ u16ToBitsLE l.index ++ fieldToBitsLE n l.id

/-- Modelled from the spec: HeaderLeaf (its source file
state_path/header_leaf is not under src/). Attributes: index u8, id F
(spec section 3). -/
structure HeaderLeaf where
  index : Nat
  id : Nat
deriving DecidableEq

/-- Modelled from the spec: canonical bit serialization of a HeaderLeaf
(spec section 4.1). -/
def HeaderLeaf.to_bits_le (l : HeaderLeaf) (n : Network) : List Bool :=
  u8ToBitsLE l.index ++ fieldToBitsLE n l.id

/-- The error domain of StatePath construction and deserialization
(spec section 7). Each constructor corresponds to one failing check of
StatePath::from and carries exactly the identifiers that the source's
ensure! message interpolates (mod.rs lines 84-117):
- transitionPathInvalid: the transition-leaf id and the transaction-leaf id;
- transactionPathInvalid: the transaction-leaf id and the transaction id;
- transactionsPathInvalid: the transaction id and the header leaf;
- headerPathInvalid: the header leaf and the block hash;
- blockHashMismatch: the stated block hash (the source message at line 111
  interpolates only block_hash);
- blockPathInvalid: the block hash and the state root;
- hashFailure: an error propagated from hash_bhp1024 (the question-mark
  operator at line 110), payload modelled abstractly;
- deserialization: malformed byte input (spec section 7; the bytes module
  is not under src/). -/
inductive StatePathError where
  | transitionPathInvalid (transitionLeafId transactionLeafId : Nat)
  | transactionPathInvalid (transactionLeafId transactionId : Nat)
  | transactionsPathInvalid (transactionId : Nat) (headerLeaf : HeaderLeaf)
  | headerPathInvalid (headerLeaf : HeaderLeaf) (blockHash : Nat)
  | blockHashMismatch (blockHash : Nat)
  | blockPathInvalid (blockHash stateRoot : Nat)
  | hashFailure (e : Nat)
  | deserialization
deriving DecidableEq

/-- The StatePath record (mod.rs lines 36-64): thirteen fields, all
immutable after construction. The field projections are exactly the
thirteen read-only accessors of mod.rs lines 136-199. -/
structure StatePath where
  state_root : Nat
  block_path : MerklePath
  block_hash : Nat
  previous_block_hash : Nat
  header_root : Nat
  header_path : MerklePath
  header_leaf : HeaderLeaf
  transactions_path : MerklePath
  transaction_id : Nat
  transaction_path : MerklePath
  transaction_leaf : TransactionLeaf
  transition_path : MerklePath
  transition_leaf : TransitionLeaf
deriving DecidableEq

/-- The bit preimage of check 5 (mod.rs line 108): the LE bits of the
previous block hash chained with the LE bits of the header root. -/
def blockHashPreimage (n : Network) (previous_block_hash header_root : Nat) : List Bool :=
  fieldToBitsLE n previous_block_hash ++ fieldToBitsLE n header_root

/-- StatePath::from (mod.rs lines 69-134). Runs the six ensure! checks in
source order; on the first failure returns the corresponding error; the
question-mark on hash_bhp1024 propagates its error; on success moves the
thirteen fields into the record. (Named fromFields because from is a
reserved word in Lean.) -/
def StatePath.fromFields (n : Network) (state_root : Nat) (block_path : MerklePath)
    (block_hash previous_block_hash header_root : Nat)
    (header_path : MerklePath) (header_leaf : HeaderLeaf)
    (transactions_path : MerklePath) (transaction_id : Nat)
    (transaction_path : MerklePath) (transaction_leaf : TransactionLeaf)
    (transition_path : MerklePath) (transition_leaf : TransitionLeaf) :
    Except StatePathError StatePath :=
  if n.verifyMerklePathBhp transition_path transaction_leaf.id (transition_leaf.to_bits_le n) then
    if n.verifyMerklePathBhp transaction_path transaction_id (transaction_leaf.to_bits_le n) then
      if n.verifyMerklePathBhp transactions_path header_leaf.id (fieldToBitsLE n transaction_id) then
        if n.verifyMerklePathBhp header_path header_root (header_leaf.to_bits_le n) then
          match n.hashBhp1024 (blockHashPreimage n previous_block_hash header_root) with
          | .error e => .error (.hashFailure e)
          | .ok h =>
            if block_hash = h then
              if n.verifyMerklePathBhp block_path state_root (fieldToBitsLE n block_hash) then
                .ok ⟨state_root, block_path, block_hash, previous_block_hash, header_root,
                  header_path, header_leaf, transactions_path, transaction_id,
                  transaction_path, transaction_leaf, transition_path, transition_leaf⟩
              else .error (.blockPathInvalid block_hash state_root)
            else .error (.blockHashMismatch block_hash)
        else .error (.headerPathInvalid header_leaf block_hash)
      else .error (.transactionsPathInvalid transaction_id header_leaf)
    else .error (.transactionPathInvalid transaction_leaf.id transaction_id)
  else .error (.transitionPathInvalid transition_leaf.id transaction_leaf.id)

/-! Concrete test network, used for witnesses and counterexamples. The
oracles are instantiated with a toy root function that determines the
root from the path's leaf index and the leaf bits, and a toy hash that
encodes the bit string as a Nat. -/

/-- Value of a little-endian bit list. -/
def encodeBitsLE : List Bool → Nat
  | [] => 0
  | b :: bs => (if b then 1 else 0) + 2 * encodeBitsLE bs

/-- Toy Merkle root: determined by the path's leaf index and the leaf bits. -/
def toyRoot (p : MerklePath) (bits : List Bool) : Nat :=
  encodeBitsLE bits + 2 ^ 27 * p.leafIndex

/-- A concrete test network with a 2-bit field, 4-byte serialization,
Merkle verification against the toy root, and the toy hash. -/
def toyNet : Network where
  fsize := 2
  fbytes := 4
  verifyMerklePathBhp := fun p root bits => root == toyRoot p bits
  hashBhp1024 := fun bits => .ok (encodeBitsLE bits)

/-- A network whose hash oracle always fails, with all Merkle paths
accepted; exercises the error propagation of check 5. -/
def toyNetHashFail : Network where
  fsize := 2
  fbytes := 4
  verifyMerklePathBhp := fun _ _ _ => true
  hashBhp1024 := fun _ => .error 7

/-! A concrete valid state path A over toyNet, built bottom-up exactly as
the test scaffolding of mod.rs lines 208-256 does over single-leaf trees. -/

def tnLeafA : TransitionLeaf := ⟨0, 0, 0, 5⟩
def tnPathA : MerklePath := ⟨[], 0⟩
def txLeafA : TransactionLeaf := ⟨0, 0, toyRoot tnPathA (tnLeafA.to_bits_le toyNet)⟩
def txPathA : MerklePath := ⟨[], 1⟩
def txIdA : Nat := toyRoot txPathA (txLeafA.to_bits_le toyNet)
def txsPathA : MerklePath := ⟨[], 2⟩
def hLeafA : HeaderLeaf := ⟨0, toyRoot txsPathA (fieldToBitsLE toyNet txIdA)⟩
def hPathA : MerklePath := ⟨[], 3⟩
def hRootA : Nat := toyRoot hPathA (hLeafA.to_bits_le toyNet)
def pbhA : Nat := 1
def bhA : Nat := encodeBitsLE (blockHashPreimage toyNet pbhA hRootA)
def blockPathA : MerklePath := ⟨[], 4⟩
def srA : Nat := toyRoot blockPathA (fieldToBitsLE toyNet bhA)

/-- The assembled valid state path A. -/
def toyA : StatePath :=
  ⟨srA, blockPathA, bhA, pbhA, hRootA, hPathA, hLeafA, txsPathA, txIdA, txPathA, txLeafA,
    tnPathA, tnLeafA⟩

/-! A second valid state path B sharing A's transition and transaction
layers but with a different transactions path, hence a header leaf with a
different id. -/

def txsPathB : MerklePath := ⟨[], 5⟩
def hLeafB : HeaderLeaf := ⟨0, toyRoot txsPathB (fieldToBitsLE toyNet txIdA)⟩
def hPathB : MerklePath := ⟨[], 6⟩
def hRootB : Nat := toyRoot hPathB (hLeafB.to_bits_le toyNet)
def bhB : Nat := encodeBitsLE (blockHashPreimage toyNet pbhA hRootB)
def blockPathB : MerklePath := ⟨[], 7⟩
def srB : Nat := toyRoot blockPathB (fieldToBitsLE toyNet bhB)

/-- The assembled valid state path B. -/
def toyB : StatePath :=
  ⟨srB, blockPathB, bhB, pbhA, hRootB, hPathB, hLeafB, txsPathB, txIdA, txPathA, txLeafA,
    tnPathA, tnLeafA⟩

/-! Byte serialization. The bytes module of the repository is not under
src/, so the layout is modelled from the spec, section 4.4. Bytes are
modelled as Nat values below 256. -/

/-- Modelled from the spec: fixed-width little-endian byte encoding of an
integer (field elements use width fbytes, u8 width 1, u16 width 2, u64
width 8; spec section 4.4). -/
def natToBytesLE : Nat → Nat → List Nat
  | 0, _ => []
  | w + 1, x => x % 256 :: natToBytesLE w (x / 256)

/-- Value of a little-endian byte list. -/
def bytesToNatLE : List Nat → Nat
  | [] => 0
  | b :: bs => b + 256 * bytesToNatLE bs

/-- Modelled from the spec: serialization of a sequence of sibling field
elements in root-to-leaf order (spec section 4.4). -/
def fieldsToBytes (w : Nat) : List Nat → List Nat
  | [] => []
  | f :: fs => natToBytesLE w f ++ fieldsToBytes w fs

/-- Modelled from the spec: Merkle-path layout, the sibling count as a u8
followed by that many siblings, followed by the leaf index as a LE u64
(spec section 4.4). -/
def pathToBytes (n : Network) (p : MerklePath) : List Nat :=
  natToBytesLE 1 p.siblings.length ++ fieldsToBytes n.fbytes p.siblings
    ++ natToBytesLE 8 p.leafIndex

/-- Modelled from the spec: HeaderLeaf layout, index u8 then id F. -/
def HeaderLeaf.toBytes (l : HeaderLeaf) (n : Network) : List Nat :=
  natToBytesLE 1 l.index ++ natToBytesLE n.fbytes l.id

/-- Modelled from the spec: TransactionLeaf layout, variant u8 then
index u16 LE then id F. -/
def TransactionLeaf.toBytes (l : TransactionLeaf) (n : Network) : List Nat :=
  natToBytesLE 1 l.variant ++ natToBytesLE 2 l.index ++ natToBytesLE n.fbytes l.id

/-- Modelled from the spec: TransitionLeaf layout, version u8, index u8,
variant u8, then id F. -/
def TransitionLeaf.toBytes (l : TransitionLeaf) (n : Network) : List Nat :=
  natToBytesLE 1 l.version ++ natToBytesLE 1 l.index ++ natToBytesLE 1 l.variant
    ++ natToBytesLE n.fbytes l.id

/-- Modelled from the spec: byte serialization of a StatePath, the
concatenation of the thirteen fields in the declaration order of spec
section 3 (spec section 4.4). -/
def StatePath.toBytes (x : StatePath) (n : Network) : List Nat :=
  natToBytesLE n.fbytes x.state_root ++ pathToBytes n x.block_path
    ++ natToBytesLE n.fbytes x.block_hash ++ natToBytesLE n.fbytes x.previous_block_hash
    ++ natToBytesLE n.fbytes x.header_root ++ pathToBytes n x.header_path
    ++ x.header_leaf.toBytes n ++ pathToBytes n x.transactions_path
    ++ natToBytesLE n.fbytes x.transaction_id ++ pathToBytes n x.transaction_path
    ++ x.transaction_leaf.toBytes n ++ pathToBytes n x.transition_path
    ++ x.transition_leaf.toBytes n

/-- Reads w bytes from the front of the input; fails on a short read. -/
def readN (w : Nat) (bs : List Nat) : Option (List Nat × List Nat) :=
  if w ≤ bs.length then some (bs.take w, bs.drop w) else none

/-- Reads a w-byte little-endian integer. -/
def readNat (w : Nat) (bs : List Nat) : Option (Nat × List Nat) :=
  (readN w bs).map fun p => (bytesToNatLE p.1, p.2)

/-- Reads k field elements. -/
def readFields (w : Nat) : Nat → List Nat → Option (List Nat × List Nat)
  | 0, bs => some ([], bs)
  | k + 1, bs =>
    (readNat w bs).bind fun p =>
      (readFields w k p.2).map fun q => (p.1 :: q.1, q.2)

/-- Modelled from the spec: reads a Merkle path (sibling count u8, the
siblings, leaf index u64 LE). -/
def readPath (n : Network) (bs : List Nat) : Option (MerklePath × List Nat) :=
  (readNat 1 bs).bind fun c =>
    (readFields n.fbytes c.1 c.2).bind fun sibs =>
      (readNat 8 sibs.2).map fun idx => (⟨sibs.1, idx.1⟩, idx.2)

/-- Modelled from the spec: reads a HeaderLeaf. -/
def readHeaderLeaf (n : Network) (bs : List Nat) : Option (HeaderLeaf × List Nat) :=
  (readNat 1 bs).bind fun i =>
    (readNat n.fbytes i.2).map fun d => (⟨i.1, d.1⟩, d.2)

/-- Modelled from the spec: reads a TransactionLeaf. -/
def readTransactionLeaf (n : Network) (bs : List Nat) : Option (TransactionLeaf × List Nat) :=
  (readNat 1 bs).bind fun v =>
    (readNat 2 v.2).bind fun i =>
      (readNat n.fbytes i.2).map fun d => (⟨v.1, i.1, d.1⟩, d.2)

/-- Modelled from the spec: reads a TransitionLeaf. -/
def readTransitionLeaf (n : Network) (bs : List Nat) : Option (TransitionLeaf × List Nat) :=
  (readNat 1 bs).bind fun v =>
    (readNat 1 v.2).bind fun i =>
      (readNat 1 i.2).bind fun va =>
        (readNat n.fbytes va.2).map fun d => (⟨v.1, i.1, va.1, d.1⟩, d.2)

/-- Modelled from the spec: structural parse of the thirteen fields in the
order of spec section 4.4, collected into a StatePath-shaped record of raw
fields (no validation happens here). -/
def readStatePathFields (n : Network) (bs : List Nat) : Option (StatePath × List Nat) :=
  match readNat n.fbytes bs with
  | none => none
  | some sr =>
  match readPath n sr.2 with
  | none => none
  | some bp =>
  match readNat n.fbytes bp.2 with
  | none => none
  | some bh =>
  match readNat n.fbytes bh.2 with
  | none => none
  | some pbh =>
  match readNat n.fbytes pbh.2 with
  | none => none
  | some hr =>
  match readPath n hr.2 with
  | none => none
  | some hp =>
  match readHeaderLeaf n hp.2 with
  | none => none
  | some hl =>
  match readPath n hl.2 with
  | none => none
  | some tsp =>
  match readNat n.fbytes tsp.2 with
  | none => none
  | some tid =>
  match readPath n tid.2 with
  | none => none
  | some tp =>
  match readTransactionLeaf n tp.2 with
  | none => none
  | some tl =>
  match readPath n tl.2 with
  | none => none
  | some tnp =>
  match readTransitionLeaf n tnp.2 with
  | none => none
  | some tnl =>
    some (⟨sr.1, bp.1, bh.1, pbh.1, hr.1, hp.1, hl.1, tsp.1, tid.1, tp.1, tl.1, tnp.1,
      tnl.1⟩, tnl.2)

/-- Modelled from the spec: deserialization reads the fields in order and
immediately re-invokes the verifying constructor; a structural parse
failure is the deserialization error (spec sections 4.4 and 7). -/
def StatePath.fromBytes (n : Network) (bs : List Nat) : Except StatePathError StatePath :=
  match readStatePathFields n bs with
  | none => .error .deserialization
  | some (a, _) =>
    StatePath.fromFields n a.state_root a.block_path a.block_hash a.previous_block_hash
      a.header_root a.header_path a.header_leaf a.transactions_path a.transaction_id
      a.transaction_path a.transaction_leaf a.transition_path a.transition_leaf

/-- Well-formedness bounds of a Merkle path for the fixed-width byte
layout: at most 255 siblings, each sibling within the field byte width,
the leaf index within a u64. -/
def MerklePath.WF (p : MerklePath) (n : Network) : Prop :=
  p.siblings.length < 256 ∧ (∀ s ∈ p.siblings, s < 256 ^ n.fbytes) ∧ p.leafIndex < 256 ^ 8

instance (p : MerklePath) (n : Network) : Decidable (p.WF n) := by
  unfold MerklePath.WF
  infer_instance

/-- Well-formedness bounds of a StatePath for the fixed-width byte layout:
every field element within the field byte width, every u8, u16 and u64
attribute within its width, every path well-formed. -/
def StatePath.WF (x : StatePath) (n : Network) : Prop :=
  x.state_root < 256 ^ n.fbytes ∧ x.block_path.WF n ∧ x.block_hash < 256 ^ n.fbytes ∧
  x.previous_block_hash < 256 ^ n.fbytes ∧ x.header_root < 256 ^ n.fbytes ∧
  x.header_path.WF n ∧ x.header_leaf.index < 256 ∧ x.header_leaf.id < 256 ^ n.fbytes ∧
  x.transactions_path.WF n ∧ x.transaction_id < 256 ^ n.fbytes ∧ x.transaction_path.WF n ∧
  x.transaction_leaf.variant < 256 ∧ x.transaction_leaf.index < 256 ^ 2 ∧
  x.transaction_leaf.id < 256 ^ n.fbytes ∧ x.transition_path.WF n ∧
  x.transition_leaf.version < 256 ∧ x.transition_leaf.index < 256 ∧
  x.transition_leaf.variant < 256 ∧ x.transition_leaf.id < 256 ^ n.fbytes

instance (x : StatePath) (n : Network) : Decidable (x.WF n) := by
  unfold StatePath.WF
  infer_instance

/-! Theorems. -/

/-- Inversion: a successful run of StatePath::from implies each of the six
checks passed on the arguments, and the returned record is exactly the
arguments. Shared helper for the claim theorems below. -/
theorem fromFields_ok_spec (n : Network) (sr : Nat) (bp : MerklePath) (bh pbh hr : Nat)
    (hp : MerklePath) (hl : HeaderLeaf) (tsp : MerklePath) (tid : Nat) (tp : MerklePath)
    (tl : TransactionLeaf) (tnp : MerklePath) (tnl : TransitionLeaf) (x : StatePath)
    (h : StatePath.fromFields n sr bp bh pbh hr hp hl tsp tid tp tl tnp tnl = .ok x) :
    n.verifyMerklePathBhp tnp tl.id (tnl.to_bits_le n) = true ∧
    n.verifyMerklePathBhp tp tid (tl.to_bits_le n) = true ∧
    n.verifyMerklePathBhp tsp hl.id (fieldToBitsLE n tid) = true ∧
    n.verifyMerklePathBhp hp hr (hl.to_bits_le n) = true ∧
    n.hashBhp1024 (blockHashPreimage n pbh hr) = .ok bh ∧
    n.verifyMerklePathBhp bp sr (fieldToBitsLE n bh) = true ∧
    x = ⟨sr, bp, bh, pbh, hr, hp, hl, tsp, tid, tp, tl, tnp, tnl⟩ := by
  unfold StatePath.fromFields at h
  repeat' split at h
  all_goals simp_all

/-- Claim C1: every StatePath value returned by StatePath::from satisfies
all six invariants simultaneously: the transition path verifies against
root transaction_leaf.id with the transition-leaf bits; the transaction
path verifies against root transaction_id with the transaction-leaf bits;
the transactions path verifies against root header_leaf.id with the
transaction-id bits; the header path verifies against root header_root
with the header-leaf bits; the block hash equals hash_bhp1024 of the
previous-block-hash bits concatenated with the header-root bits; and the
block path verifies against root state_root with the block-hash bits. -/
theorem StatePath.fromFields_ok_invariants (n : Network) (sr : Nat) (bp : MerklePath)
    (bh pbh hr : Nat) (hp : MerklePath) (hl : HeaderLeaf) (tsp : MerklePath) (tid : Nat)
    (tp : MerklePath) (tl : TransactionLeaf) (tnp : MerklePath) (tnl : TransitionLeaf)
    (x : StatePath)
    (h : StatePath.fromFields n sr bp bh pbh hr hp hl tsp tid tp tl tnp tnl = .ok x) :
    n.verifyMerklePathBhp x.transition_path x.transaction_leaf.id
      (x.transition_leaf.to_bits_le n) = true ∧
    n.verifyMerklePathBhp x.transaction_path x.transaction_id
      (x.transaction_leaf.to_bits_le n) = true ∧
    n.verifyMerklePathBhp x.transactions_path x.header_leaf.id
      (fieldToBitsLE n x.transaction_id) = true ∧
    n.verifyMerklePathBhp x.header_path x.header_root (x.header_leaf.to_bits_le n) = true ∧
    n.hashBhp1024 (fieldToBitsLE n x.previous_block_hash ++ fieldToBitsLE n x.header_root)
      = .ok x.block_hash ∧
    n.verifyMerklePathBhp x.block_path x.state_root (fieldToBitsLE n x.block_hash) = true := by
  obtain ⟨c1, c2, c3, c4, c5, c6, rfl⟩ :=
    fromFields_ok_spec n sr bp bh pbh hr hp hl tsp tid tp tl tnp tnl x h
  exact ⟨c1, c2, c3, c4, c5, c6⟩

/-- Witness for C1 at the concrete test network. -/
theorem StatePath.fromFields_ok_invariants_witness :
    toyNet.verifyMerklePathBhp toyA.transition_path toyA.transaction_leaf.id
      (toyA.transition_leaf.to_bits_le toyNet) = true :=
  (StatePath.fromFields_ok_invariants toyNet srA blockPathA bhA pbhA hRootA hPathA hLeafA
    txsPathA txIdA txPathA txLeafA tnPathA tnLeafA toyA (by decide)).1

/-- Claim C6: construction from a valid instance's own fields is total and
the identity: if StatePath::from returned x, then StatePath::from applied
to the thirteen field values of x succeeds and returns x itself. -/
theorem StatePath.fromFields_idempotent (n : Network) (sr : Nat) (bp : MerklePath)
    (bh pbh hr : Nat) (hp : MerklePath) (hl : HeaderLeaf) (tsp : MerklePath) (tid : Nat)
    (tp : MerklePath) (tl : TransactionLeaf) (tnp : MerklePath) (tnl : TransitionLeaf)
    (x : StatePath)
    (h : StatePath.fromFields n sr bp bh pbh hr hp hl tsp tid tp tl tnp tnl = .ok x) :
    StatePath.fromFields n x.state_root x.block_path x.block_hash x.previous_block_hash
      x.header_root x.header_path x.header_leaf x.transactions_path x.transaction_id
      x.transaction_path x.transaction_leaf x.transition_path x.transition_leaf = .ok x := by
  obtain ⟨-, -, -, -, -, -, rfl⟩ :=
    fromFields_ok_spec n sr bp bh pbh hr hp hl tsp tid tp tl tnp tnl x h
  exact h

/-- Witness for C6 at the concrete test network. -/
theorem StatePath.fromFields_idempotent_witness :
    StatePath.fromFields toyNet toyA.state_root toyA.block_path toyA.block_hash
      toyA.previous_block_hash toyA.header_root toyA.header_path toyA.header_leaf
      toyA.transactions_path toyA.transaction_id toyA.transaction_path toyA.transaction_leaf
      toyA.transition_path toyA.transition_leaf = .ok toyA :=
  StatePath.fromFields_idempotent toyNet srA blockPathA bhA pbhA hRootA hPathA hLeafA
    txsPathA txIdA txPathA txLeafA tnPathA tnLeafA toyA (by decide)

/-- Claim C8: each of the thirteen read-only accessors (here the field
projections of the StatePath record, matching mod.rs lines 136-199)
returns exactly the value that was passed to StatePath::from for the
corresponding field; accessors are total functions of the record and
recompute nothing. -/
theorem StatePath.accessors_eq (n : Network) (sr : Nat) (bp : MerklePath)
    (bh pbh hr : Nat) (hp : MerklePath) (hl : HeaderLeaf) (tsp : MerklePath) (tid : Nat)
    (tp : MerklePath) (tl : TransactionLeaf) (tnp : MerklePath) (tnl : TransitionLeaf)
    (x : StatePath)
    (h : StatePath.fromFields n sr bp bh pbh hr hp hl tsp tid tp tl tnp tnl = .ok x) :
    x.state_root = sr ∧ x.block_path = bp ∧ x.block_hash = bh ∧
    x.previous_block_hash = pbh ∧ x.header_root = hr ∧ x.header_path = hp ∧
    x.header_leaf = hl ∧ x.transactions_path = tsp ∧ x.transaction_id = tid ∧
    x.transaction_path = tp ∧ x.transaction_leaf = tl ∧ x.transition_path = tnp ∧
    x.transition_leaf = tnl := by
  obtain ⟨-, -, -, -, -, -, rfl⟩ :=
    fromFields_ok_spec n sr bp bh pbh hr hp hl tsp tid tp tl tnp tnl x h
  exact ⟨rfl, rfl, rfl, rfl, rfl, rfl, rfl, rfl, rfl, rfl, rfl, rfl, rfl⟩

/-- Witness for C8 at the concrete test network. -/
theorem StatePath.accessors_eq_witness : toyA.state_root = srA :=
  (StatePath.accessors_eq toyNet srA blockPathA bhA pbhA hRootA hPathA hLeafA
    txsPathA txIdA txPathA txLeafA tnPathA tnLeafA toyA (by decide)).1

/-- Claim C9: StatePath::from performs no validation beyond the six listed
checks: whenever the five Merkle verifications succeed and hash_bhp1024
returns the stated block hash on the check-5 preimage, the constructor
returns Ok with the arguments as fields. The leaf attribute values
(version, index, variant) are universally quantified and impose no
additional precondition. -/
theorem StatePath.fromFields_complete (n : Network) (sr : Nat) (bp : MerklePath)
    (bh pbh hr : Nat) (hp : MerklePath) (hl : HeaderLeaf) (tsp : MerklePath) (tid : Nat)
    (tp : MerklePath) (tl : TransactionLeaf) (tnp : MerklePath) (tnl : TransitionLeaf)
    (hc1 : n.verifyMerklePathBhp tnp tl.id (tnl.to_bits_le n) = true)
    (hc2 : n.verifyMerklePathBhp tp tid (tl.to_bits_le n) = true)
    (hc3 : n.verifyMerklePathBhp tsp hl.id (fieldToBitsLE n tid) = true)
    (hc4 : n.verifyMerklePathBhp hp hr (hl.to_bits_le n) = true)
    (hc5 : n.hashBhp1024 (blockHashPreimage n pbh hr) = .ok bh)
    (hc6 : n.verifyMerklePathBhp bp sr (fieldToBitsLE n bh) = true) :
    StatePath.fromFields n sr bp bh pbh hr hp hl tsp tid tp tl tnp tnl
      = .ok ⟨sr, bp, bh, pbh, hr, hp, hl, tsp, tid, tp, tl, tnp, tnl⟩ := by
  unfold StatePath.fromFields
  simp [hc1, hc2, hc3, hc4, hc5, hc6]

/-- Witness for C9 at the concrete test network, with nonzero leaf
attribute values (version 0, index 0, variant 0 are those of toyA). -/
theorem StatePath.fromFields_complete_witness :
    StatePath.fromFields toyNet srA blockPathA bhA pbhA hRootA hPathA hLeafA txsPathA txIdA
      txPathA txLeafA tnPathA tnLeafA = .ok toyA :=
  StatePath.fromFields_complete toyNet srA blockPathA bhA pbhA hRootA hPathA hLeafA txsPathA
    txIdA txPathA txLeafA tnPathA tnLeafA (by decide) (by decide) (by decide) (by decide)
    (by decide) (by decide)

/-- Claim C10: if hash_bhp1024 returns an error on the check-5 preimage
(after checks 1-4 pass), StatePath::from propagates that underlying error,
an outcome distinct from the block-hash-mismatch failure, and no StatePath
is produced. -/
theorem StatePath.hash_error_propagation (n : Network) (sr : Nat) (bp : MerklePath)
    (bh pbh hr : Nat) (hp : MerklePath) (hl : HeaderLeaf) (tsp : MerklePath) (tid : Nat)
    (tp : MerklePath) (tl : TransactionLeaf) (tnp : MerklePath) (tnl : TransitionLeaf)
    (e : Nat)
    (hc1 : n.verifyMerklePathBhp tnp tl.id (tnl.to_bits_le n) = true)
    (hc2 : n.verifyMerklePathBhp tp tid (tl.to_bits_le n) = true)
    (hc3 : n.verifyMerklePathBhp tsp hl.id (fieldToBitsLE n tid) = true)
    (hc4 : n.verifyMerklePathBhp hp hr (hl.to_bits_le n) = true)
    (he : n.hashBhp1024 (blockHashPreimage n pbh hr) = .error e) :
    StatePath.fromFields n sr bp bh pbh hr hp hl tsp tid tp tl tnp tnl
      = .error (.hashFailure e) ∧
    ∀ b : Nat, (StatePathError.hashFailure e : StatePathError) ≠ .blockHashMismatch b := by
  constructor
  · unfold StatePath.fromFields
    simp [hc1, hc2, hc3, hc4, he]
  · intro b hne
    cases hne

/-- Witness for C10 at the failing-hash test network. -/
theorem StatePath.hash_error_propagation_witness :
    StatePath.fromFields toyNetHashFail 0 ⟨[], 0⟩ 0 0 0 ⟨[], 0⟩ ⟨0, 0⟩ ⟨[], 0⟩ 0 ⟨[], 0⟩
      ⟨0, 0, 0⟩ ⟨[], 0⟩ ⟨0, 0, 0, 0⟩ = .error (.hashFailure 7) :=
  (StatePath.hash_error_propagation toyNetHashFail 0 ⟨[], 0⟩ 0 0 0 ⟨[], 0⟩ ⟨0, 0⟩ ⟨[], 0⟩ 0
    ⟨[], 0⟩ ⟨0, 0, 0⟩ ⟨[], 0⟩ ⟨0, 0, 0, 0⟩ 7 (by decide) (by decide) (by decide) (by decide)
    (by decide)).1

/-- Claim C2: StatePath::from runs the six checks in the fixed source
order 1 to 6 and returns the error of the first failing check; in
particular, mutating only previous_block_hash in an otherwise-valid set of
13 fields (so that the recomputed hash no longer matches the stated block
hash) fails at check 5 with the block-hash-mismatch error, not at check 6,
because check 5 fires before check 6 is consulted. -/
theorem StatePath.fromFields_check_order (n : Network) (sr : Nat) (bp : MerklePath)
    (bh pbh hr : Nat) (hp : MerklePath) (hl : HeaderLeaf) (tsp : MerklePath) (tid : Nat)
    (tp : MerklePath) (tl : TransactionLeaf) (tnp : MerklePath) (tnl : TransitionLeaf)
    (x : StatePath) (pbh' h' : Nat) :
    (n.verifyMerklePathBhp tnp tl.id (tnl.to_bits_le n) = false →
      StatePath.fromFields n sr bp bh pbh hr hp hl tsp tid tp tl tnp tnl
        = .error (.transitionPathInvalid tnl.id tl.id)) ∧
    (n.verifyMerklePathBhp tnp tl.id (tnl.to_bits_le n) = true →
     n.verifyMerklePathBhp tp tid (tl.to_bits_le n) = false →
      StatePath.fromFields n sr bp bh pbh hr hp hl tsp tid tp tl tnp tnl
        = .error (.transactionPathInvalid tl.id tid)) ∧
    (n.verifyMerklePathBhp tnp tl.id (tnl.to_bits_le n) = true →
     n.verifyMerklePathBhp tp tid (tl.to_bits_le n) = true →
     n.verifyMerklePathBhp tsp hl.id (fieldToBitsLE n tid) = false →
      StatePath.fromFields n sr bp bh pbh hr hp hl tsp tid tp tl tnp tnl
        = .error (.transactionsPathInvalid tid hl)) ∧
    (n.verifyMerklePathBhp tnp tl.id (tnl.to_bits_le n) = true →
     n.verifyMerklePathBhp tp tid (tl.to_bits_le n) = true →
     n.verifyMerklePathBhp tsp hl.id (fieldToBitsLE n tid) = true →
     n.verifyMerklePathBhp hp hr (hl.to_bits_le n) = false →
      StatePath.fromFields n sr bp bh pbh hr hp hl tsp tid tp tl tnp tnl
        = .error (.headerPathInvalid hl bh)) ∧
    (n.verifyMerklePathBhp tnp tl.id (tnl.to_bits_le n) = true →
     n.verifyMerklePathBhp tp tid (tl.to_bits_le n) = true →
     n.verifyMerklePathBhp tsp hl.id (fieldToBitsLE n tid) = true →
     n.verifyMerklePathBhp hp hr (hl.to_bits_le n) = true →
     n.hashBhp1024 (blockHashPreimage n pbh hr) = .ok h' → bh ≠ h' →
      StatePath.fromFields n sr bp bh pbh hr hp hl tsp tid tp tl tnp tnl
        = .error (.blockHashMismatch bh)) ∧
    (n.verifyMerklePathBhp tnp tl.id (tnl.to_bits_le n) = true →
     n.verifyMerklePathBhp tp tid (tl.to_bits_le n) = true →
     n.verifyMerklePathBhp tsp hl.id (fieldToBitsLE n tid) = true →
     n.verifyMerklePathBhp hp hr (hl.to_bits_le n) = true →
     n.hashBhp1024 (blockHashPreimage n pbh hr) = .ok bh →
     n.verifyMerklePathBhp bp sr (fieldToBitsLE n bh) = false →
      StatePath.fromFields n sr bp bh pbh hr hp hl tsp tid tp tl tnp tnl
        = .error (.blockPathInvalid bh sr)) ∧
    (StatePath.fromFields n sr bp bh pbh hr hp hl tsp tid tp tl tnp tnl = .ok x →
     pbh' ≠ pbh →
     n.hashBhp1024 (blockHashPreimage n pbh' hr) = .ok h' → bh ≠ h' →
      StatePath.fromFields n sr bp bh pbh' hr hp hl tsp tid tp tl tnp tnl
        = .error (.blockHashMismatch bh)) := by
  refine ⟨?_, ?_, ?_, ?_, ?_, ?_, ?_⟩
  · intro h1
    unfold StatePath.fromFields
    simp [h1]
  · intro h1 h2
    unfold StatePath.fromFields
    simp [h1, h2]
  · intro h1 h2 h3
    unfold StatePath.fromFields
    simp [h1, h2, h3]
  · intro h1 h2 h3 h4
    unfold StatePath.fromFields
    simp [h1, h2, h3, h4]
  · intro h1 h2 h3 h4 h5 h6
    unfold StatePath.fromFields
    simp [h1, h2, h3, h4, h5, h6]
  · intro h1 h2 h3 h4 h5 h6
    unfold StatePath.fromFields
    simp [h1, h2, h3, h4, h5, h6]
  · intro hok hne hh hmis
    obtain ⟨c1, c2, c3, c4, -, -, -⟩ :=
      fromFields_ok_spec n sr bp bh pbh hr hp hl tsp tid tp tl tnp tnl x hok
    unfold StatePath.fromFields
    simp [c1, c2, c3, c4, hh, hmis]

/-- Witness for C2: mutating previous_block_hash of the valid toy path A
from 1 to 0 makes construction fail with the check-5 error. -/
theorem StatePath.fromFields_check_order_witness :
    StatePath.fromFields toyNet srA blockPathA bhA 0 hRootA hPathA hLeafA txsPathA txIdA
      txPathA txLeafA tnPathA tnLeafA = .error (.blockHashMismatch bhA) :=
  (StatePath.fromFields_check_order toyNet srA blockPathA bhA pbhA hRootA hPathA hLeafA
    txsPathA txIdA txPathA txLeafA tnPathA tnLeafA toyA 0
    (encodeBitsLE (blockHashPreimage toyNet 0 hRootA))).2.2.2.2.2.2
    (by decide) (by decide) (by decide) (by decide)

/-- Claim C3: the check-5 preimage is exactly the LE bit expansion of
previous_block_hash followed by the LE bit expansion of header_root, in
that order, totalling exactly 2 times the field bit-length, and the
resulting field element is compared for equality against block_hash
(after checks 1-4 pass, the constructor fails with the mismatch error
exactly when block_hash differs from the hash output). -/
theorem StatePath.blockHashPreimage_spec (n : Network) (sr : Nat) (bp : MerklePath)
    (bh pbh hr : Nat) (hp : MerklePath) (hl : HeaderLeaf) (tsp : MerklePath) (tid : Nat)
    (tp : MerklePath) (tl : TransactionLeaf) (tnp : MerklePath) (tnl : TransitionLeaf)
    (h : Nat)
    (hc1 : n.verifyMerklePathBhp tnp tl.id (tnl.to_bits_le n) = true)
    (hc2 : n.verifyMerklePathBhp tp tid (tl.to_bits_le n) = true)
    (hc3 : n.verifyMerklePathBhp tsp hl.id (fieldToBitsLE n tid) = true)
    (hc4 : n.verifyMerklePathBhp hp hr (hl.to_bits_le n) = true)
    (hh : n.hashBhp1024 (blockHashPreimage n pbh hr) = .ok h) :
    blockHashPreimage n pbh hr = fieldToBitsLE n pbh ++ fieldToBitsLE n hr ∧
    (blockHashPreimage n pbh hr).length = 2 * n.fsize ∧
    (StatePath.fromFields n sr bp bh pbh hr hp hl tsp tid tp tl tnp tnl
        = .error (.blockHashMismatch bh) ↔ bh ≠ h) := by
  refine ⟨rfl, ?_, ?_, ?_⟩
  · simp [blockHashPreimage, fieldToBitsLE, two_mul]
  · intro hfail hbe
    subst hbe
    unfold StatePath.fromFields at hfail
    simp [hc1, hc2, hc3, hc4, hh] at hfail
    split at hfail <;> simp_all
  · intro hne
    unfold StatePath.fromFields
    simp [hc1, hc2, hc3, hc4, hh, hne]

/-- Witness for C3 at the concrete test network. -/
theorem StatePath.blockHashPreimage_spec_witness :
    (blockHashPreimage toyNet pbhA hRootA).length = 2 * toyNet.fsize :=
  (StatePath.blockHashPreimage_spec toyNet srA blockPathA bhA pbhA hRootA hPathA hLeafA
    txsPathA txIdA txPathA txLeafA tnPathA tnLeafA bhA (by decide) (by decide) (by decide)
    (by decide) (by decide)).2.1

/-- Counterexample to claim C4 as stated: toy paths A and B are both
valid, their header_leaf values are distinct (their ids differ), yet
substituting B's header_leaf into A's fields fails with the check-3 error
(the transactions path is verified against root header_leaf.id before the
header path is consulted), not with the header-path error of check 4. -/
theorem StatePath.header_leaf_swap_cex :
    StatePath.fromFields toyNet srA blockPathA bhA pbhA hRootA hPathA hLeafA txsPathA txIdA
      txPathA txLeafA tnPathA tnLeafA = .ok toyA ∧
    StatePath.fromFields toyNet srB blockPathB bhB pbhA hRootB hPathB hLeafB txsPathB txIdA
      txPathA txLeafA tnPathA tnLeafA = .ok toyB ∧
    toyA.header_leaf ≠ toyB.header_leaf ∧
    StatePath.fromFields toyNet srA blockPathA bhA pbhA hRootA hPathA hLeafB txsPathA txIdA
      txPathA txLeafA tnPathA tnLeafA
      = .error (.transactionsPathInvalid txIdA hLeafB) :=
  ⟨by decide, by decide, by decide, by decide⟩

/-- Claim C4 as amended: substituting another header leaf into a valid
path's fields fails with the header-path error of check 4 provided the
substituted leaf has the same id (so that check 3, whose Merkle root is
header_leaf.id, still passes) and the header path rejects the new leaf
bits; when the substituted leaf's id differs and the transactions path
rejects the new root, check 3 fires first and the error is the
transactions-path error. -/
theorem StatePath.header_leaf_swap (n : Network) (sr : Nat) (bp : MerklePath)
    (bh pbh hr : Nat) (hp : MerklePath) (hl : HeaderLeaf) (tsp : MerklePath) (tid : Nat)
    (tp : MerklePath) (tl : TransactionLeaf) (tnp : MerklePath) (tnl : TransitionLeaf)
    (x : StatePath) (hl' : HeaderLeaf)
    (hok : StatePath.fromFields n sr bp bh pbh hr hp hl tsp tid tp tl tnp tnl = .ok x) :
    (hl'.id = hl.id →
     n.verifyMerklePathBhp hp hr (hl'.to_bits_le n) = false →
      StatePath.fromFields n sr bp bh pbh hr hp hl' tsp tid tp tl tnp tnl
        = .error (.headerPathInvalid hl' bh)) ∧
    (n.verifyMerklePathBhp tsp hl'.id (fieldToBitsLE n tid) = false →
      StatePath.fromFields n sr bp bh pbh hr hp hl' tsp tid tp tl tnp tnl
        = .error (.transactionsPathInvalid tid hl')) := by
  obtain ⟨c1, c2, c3, c4, c5, c6, -⟩ :=
    fromFields_ok_spec n sr bp bh pbh hr hp hl tsp tid tp tl tnp tnl x hok
  constructor
  · intro hid hrej
    unfold StatePath.fromFields
    simp [c1, c2, hid, c3, hrej]
  · intro hrej
    unfold StatePath.fromFields
    simp [c1, c2, hrej]

/-- Witness for the amended C4: a header leaf with the same id as toy path
A's but a different index fails the header-path check of check 4. -/
theorem StatePath.header_leaf_swap_witness :
    StatePath.fromFields toyNet srA blockPathA bhA pbhA hRootA hPathA ⟨1, hLeafA.id⟩ txsPathA
      txIdA txPathA txLeafA tnPathA tnLeafA
      = .error (.headerPathInvalid ⟨1, hLeafA.id⟩ bhA) :=
  (StatePath.header_leaf_swap toyNet srA blockPathA bhA pbhA hRootA hPathA hLeafA txsPathA
    txIdA txPathA txLeafA tnPathA tnLeafA toyA ⟨1, hLeafA.id⟩ (by decide)).1
    (by decide) (by decide)

/-- Counterexample to claim C5 as stated: two runs over the toy network
whose computed block hashes differ (the hash outputs on the two check-5
preimages are distinct) but whose stated block hash is the same produce
literally identical check-5 errors; the error therefore cannot carry the
computed block hash, only the stated one. -/
theorem StatePath.blockHashMismatch_payload_cex :
    StatePath.fromFields toyNet srA blockPathA (bhA + 1) 0 hRootA hPathA hLeafA txsPathA
      txIdA txPathA txLeafA tnPathA tnLeafA = .error (.blockHashMismatch (bhA + 1)) ∧
    StatePath.fromFields toyNet srA blockPathA (bhA + 1) 1 hRootA hPathA hLeafA txsPathA
      txIdA txPathA txLeafA tnPathA tnLeafA = .error (.blockHashMismatch (bhA + 1)) ∧
    toyNet.hashBhp1024 (blockHashPreimage toyNet 0 hRootA)
      ≠ toyNet.hashBhp1024 (blockHashPreimage toyNet 1 hRootA) :=
  ⟨by decide, by decide, by decide⟩

/-- Claim C5 as amended: whenever check 5 fails, StatePath::from returns a
block-hash-mismatch error that carries the stated block hash (the
block_hash argument) only; the computed hash is not part of the error. -/
theorem StatePath.blockHashMismatch_payload (n : Network) (sr : Nat) (bp : MerklePath)
    (bh pbh hr : Nat) (hp : MerklePath) (hl : HeaderLeaf) (tsp : MerklePath) (tid : Nat)
    (tp : MerklePath) (tl : TransactionLeaf) (tnp : MerklePath) (tnl : TransitionLeaf)
    (h : Nat)
    (hc1 : n.verifyMerklePathBhp tnp tl.id (tnl.to_bits_le n) = true)
    (hc2 : n.verifyMerklePathBhp tp tid (tl.to_bits_le n) = true)
    (hc3 : n.verifyMerklePathBhp tsp hl.id (fieldToBitsLE n tid) = true)
    (hc4 : n.verifyMerklePathBhp hp hr (hl.to_bits_le n) = true)
    (hh : n.hashBhp1024 (blockHashPreimage n pbh hr) = .ok h)
    (hne : bh ≠ h) :
    StatePath.fromFields n sr bp bh pbh hr hp hl tsp tid tp tl tnp tnl
      = .error (.blockHashMismatch bh) := by
  unfold StatePath.fromFields
  simp [hc1, hc2, hc3, hc4, hh, hne]

/-- Witness for the amended C5 at the concrete test network. -/
theorem StatePath.blockHashMismatch_payload_witness :
    StatePath.fromFields toyNet srA blockPathA (bhA + 2) pbhA hRootA hPathA hLeafA txsPathA
      txIdA txPathA txLeafA tnPathA tnLeafA = .error (.blockHashMismatch (bhA + 2)) :=
  StatePath.blockHashMismatch_payload toyNet srA blockPathA (bhA + 2) pbhA hRootA hPathA
    hLeafA txsPathA txIdA txPathA txLeafA tnPathA tnLeafA bhA (by decide) (by decide)
    (by decide) (by decide) (by decide) (by decide)

/-! Round-trip lemmas for the byte layout. -/

/-- The fixed-width encoding always has its stated width. -/
theorem length_natToBytesLE (w x : Nat) : (natToBytesLE w x).length = w := by
  induction w generalizing x with
  | zero => rfl
  | succ w ih => simp [natToBytesLE, ih]

/-- Decoding inverts the fixed-width encoding of a bounded value. -/
theorem bytesToNatLE_natToBytesLE (w x : Nat) (h : x < 256 ^ w) :
    bytesToNatLE (natToBytesLE w x) = x := by
  induction w generalizing x with
  | zero =>
    simp only [pow_zero, Nat.lt_one_iff] at h
    simp [natToBytesLE, bytesToNatLE, h]
  | succ w ih =>
    have hdiv : x / 256 < 256 ^ w := by
      rw [Nat.div_lt_iff_lt_mul (by norm_num)]
      rw [pow_succ] at h
      exact h
    simp only [natToBytesLE, bytesToNatLE, ih _ hdiv]
    exact Nat.mod_add_div x 256

/-- Reading a fixed-width integer from its encoding returns the value and
the remainder. -/
theorem readNat_append (w x : Nat) (r : List Nat) (h : x < 256 ^ w) :
    readNat w (natToBytesLE w x ++ r) = some (x, r) := by
  unfold readNat readN
  rw [if_pos]
  · rw [List.take_left' (length_natToBytesLE w x), List.drop_left' (length_natToBytesLE w x)]
    simp [bytesToNatLE_natToBytesLE w x h]
  · rw [List.length_append, length_natToBytesLE]
    omega

/-- Reading back a serialized sibling sequence returns the siblings and
the remainder. -/
theorem readFields_append (w : Nat) (fs : List Nat) (r : List Nat)
    (h : ∀ s ∈ fs, s < 256 ^ w) :
    readFields w fs.length (fieldsToBytes w fs ++ r) = some (fs, r) := by
  induction fs generalizing r with
  | nil => simp [readFields, fieldsToBytes]
  | cons f fs ih =>
    simp only [fieldsToBytes, List.length_cons, readFields, List.append_assoc]
    rw [readNat_append w f _ (h f (by simp))]
    simp only [Option.some_bind]
    rw [ih _ (fun s hs => h s (by simp [hs]))]
    simp

/-- Reading back a serialized Merkle path returns the path and the
remainder. -/
theorem readPath_append (n : Network) (p : MerklePath) (r : List Nat) (h : p.WF n) :
    readPath n (pathToBytes n p ++ r) = some (p, r) := by
  obtain ⟨h1, h2, h3⟩ := h
  unfold readPath pathToBytes
  simp only [List.append_assoc]
  rw [readNat_append 1 _ _ (by simpa using h1)]
  simp only [Option.some_bind]
  rw [readFields_append n.fbytes p.siblings _ h2]
  simp only [Option.some_bind]
  rw [readNat_append 8 _ _ h3]
  simp

/-- Reading back a serialized HeaderLeaf returns the leaf and the
remainder. -/
theorem readHeaderLeaf_append (n : Network) (l : HeaderLeaf) (r : List Nat)
    (h1 : l.index < 256) (h2 : l.id < 256 ^ n.fbytes) :
    readHeaderLeaf n (l.toBytes n ++ r) = some (l, r) := by
  unfold readHeaderLeaf HeaderLeaf.toBytes
  simp only [List.append_assoc]
  rw [readNat_append 1 _ _ (by simpa using h1)]
  simp only [Option.some_bind]
  rw [readNat_append n.fbytes _ _ h2]
  simp

/-- Reading back a serialized TransactionLeaf returns the leaf and the
remainder. -/
theorem readTransactionLeaf_append (n : Network) (l : TransactionLeaf) (r : List Nat)
    (h1 : l.variant < 256) (h2 : l.index < 256 ^ 2) (h3 : l.id < 256 ^ n.fbytes) :
    readTransactionLeaf n (l.toBytes n ++ r) = some (l, r) := by
  unfold readTransactionLeaf TransactionLeaf.toBytes
  simp only [List.append_assoc]
  rw [readNat_append 1 _ _ (by simpa using h1)]
  simp only [Option.some_bind]
  rw [readNat_append 2 _ _ h2]
  simp only [Option.some_bind]
  rw [readNat_append n.fbytes _ _ h3]
  simp

/-- Reading back a serialized TransitionLeaf returns the leaf and the
remainder. -/
theorem readTransitionLeaf_append (n : Network) (l : TransitionLeaf) (r : List Nat)
    (h1 : l.version < 256) (h2 : l.index < 256) (h3 : l.variant < 256)
    (h4 : l.id < 256 ^ n.fbytes) :
    readTransitionLeaf n (l.toBytes n ++ r) = some (l, r) := by
  unfold readTransitionLeaf TransitionLeaf.toBytes
  simp only [List.append_assoc]
  rw [readNat_append 1 _ _ (by simpa using h1)]
  simp only [Option.some_bind]
  rw [readNat_append 1 _ _ (by simpa using h2)]
  simp only [Option.some_bind]
  rw [readNat_append 1 _ _ (by simpa using h3)]
  simp only [Option.some_bind]
  rw [readNat_append n.fbytes _ _ h4]
  simp

/-- Structural parse inverts serialization for a well-formed StatePath. -/
theorem readStatePathFields_toBytes (n : Network) (x : StatePath) (hwf : x.WF n)
    (r : List Nat) : readStatePathFields n (x.toBytes n ++ r) = some (x, r) := by
  obtain ⟨w1, w2, w3, w4, w5, w6, w7, w8, w9, w10, w11, w12, w13, w14, w15, w16, w17,
    w18, w19⟩ := hwf
  unfold readStatePathFields StatePath.toBytes
  simp only [List.append_assoc, readNat_append, readPath_append, readHeaderLeaf_append,
    readTransactionLeaf_append, readTransitionLeaf_append, w1, w2, w3, w4, w5, w6, w7, w8,
    w9, w10, w11, w12, w13, w14, w15, w16, w17, w18, w19]

/-- Structural parse of exactly the serialized bytes leaves no remainder. -/
theorem readStatePathFields_toBytes_nil (n : Network) (x : StatePath) (hwf : x.WF n) :
    readStatePathFields n (x.toBytes n) = some (x, []) := by
  have h := readStatePathFields_toBytes n x hwf []
  rwa [List.append_nil] at h

/-- Claim C7: for a valid, layout-bounded StatePath x, deserializing the
byte serialization of x succeeds and yields x; serialization is
deterministic and injective on layout-bounded paths; and deserialization
re-invokes the verifying constructor, so any successful deserialization
output itself reconstructs successfully (bytes violating checks 1-6 are
rejected). -/
theorem StatePath.bytes_roundtrip (n : Network) (sr : Nat) (bp : MerklePath)
    (bh pbh hr : Nat) (hp : MerklePath) (hl : HeaderLeaf) (tsp : MerklePath) (tid : Nat)
    (tp : MerklePath) (tl : TransactionLeaf) (tnp : MerklePath) (tnl : TransitionLeaf)
    (x : StatePath)
    (hok : StatePath.fromFields n sr bp bh pbh hr hp hl tsp tid tp tl tnp tnl = .ok x)
    (hwf : x.WF n) :
    StatePath.fromBytes n (x.toBytes n) = .ok x ∧
    (∀ y : StatePath, x = y → x.toBytes n = y.toBytes n) ∧
    (∀ y : StatePath, y.WF n → x.toBytes n = y.toBytes n → x = y) ∧
    (∀ (bs : List Nat) (y : StatePath), StatePath.fromBytes n bs = .ok y →
      StatePath.fromFields n y.state_root y.block_path y.block_hash y.previous_block_hash
        y.header_root y.header_path y.header_leaf y.transactions_path y.transaction_id
        y.transaction_path y.transaction_leaf y.transition_path y.transition_leaf
        = .ok y) := by
  refine ⟨?_, ?_, ?_, ?_⟩
  · unfold StatePath.fromBytes
    rw [readStatePathFields_toBytes_nil n x hwf]
    obtain ⟨-, -, -, -, -, -, rfl⟩ :=
      fromFields_ok_spec n sr bp bh pbh hr hp hl tsp tid tp tl tnp tnl x hok
    exact hok
  · intro y hxy
    rw [hxy]
  · intro y hywf heq
    have hx := readStatePathFields_toBytes_nil n x hwf
    have hy := readStatePathFields_toBytes_nil n y hywf
    rw [heq] at hx
    rw [hy] at hx
    simpa using hx.symm
  · intro bs y hby
    unfold StatePath.fromBytes at hby
    split at hby
    · cases hby
    · obtain ⟨-, -, -, -, -, -, rfl⟩ := fromFields_ok_spec n _ _ _ _ _ _ _ _ _ _ _ _ _ y hby
      exact hby

/-- Witness for C7 at the concrete test network. -/
theorem StatePath.bytes_roundtrip_witness :
    StatePath.fromBytes toyNet (toyA.toBytes toyNet) = .ok toyA :=
  (StatePath.bytes_roundtrip toyNet srA blockPathA bhA pbhA hRootA hPathA hLeafA txsPathA
    txIdA txPathA txLeafA tnPathA tnLeafA toyA (by decide) (by decide)).1

end SnarkVM
